import Mathlib

/-
Verification of the prompt-to-analysis pipeline (src/analysis.py).

The pipeline is shallowly embedded:
  * `clean_code_snippet` models the snippet extractor (regex fence search plus
    line-based recovery) of analysis.py lines 24-45;
  * `generate_fallback_code` models the heuristic fallback generator
    (analysis.py lines 112-209), producing a structured `FallbackSnippet`
    carrying exactly the parameters interpolated into each code template;
  * `execFallback` gives the pandas semantics of each generated template,
    returning the post-execution state of the caller's table (the source
    executes the snippet against the live `df` object, so in-place mutation
    is observable) together with the three harvested outputs;
  * `interpret_prompt_with_llm`, `analyzePipeline` and `analyze_data` model
    analysis.py lines 47-110 and 211-240; the external generative call and
    the execution of model-produced snippets are parameters (`gen`, an
    `Oracle`), since they are external collaborators.

Tables are column-name/dtype/row-list records; numeric cells are Int or Rat
(the claims under verification concern row counts, orderings and column
selections, none of which depend on float rounding).
-/

-- ## Text primitives (Python str semantics used by analysis.py)

def isPyWs (c : Char) : Bool :=
  c = ' ' || c = '\t' || c = '\n' || c = '\r' || c = Char.ofNat 11 || c = Char.ofNat 12

/-- Python `str.strip()` on the character list of a string. -/
def pyStrip (l : List Char) : List Char :=
  ((l.dropWhile isPyWs).reverse.dropWhile isPyWs).reverse

def pyStripS (s : String) : String :=
  ⟨pyStrip s.data⟩

def isPrefOf : List Char → List Char → Bool
  | [], _ => true
  | _ :: _, [] => false
  | a :: as, b :: bs => a = b && isPrefOf as bs

/-- Index of the leftmost occurrence of `pat` in a character list
(`re.search` for a literal pattern). -/
def findSub (pat : List Char) : List Char → Option Nat
  | [] => if pat = [] then some 0 else none
  | c :: t => if isPrefOf pat (c :: t) then some 0 else (findSub pat t).map (· + 1)

/-- Python `needle in hay` on strings. -/
def strContains (hay needle : String) : Bool :=
  (findSub needle.data hay.data).isSome

/-- Python `str.lower()` (ASCII suffices for the keyword sets involved). -/
def lowerStr (s : String) : String :=
  ⟨s.data.map Char.toLower⟩

def firstDigitRun : List Char → Option (List Char)
  | [] => none
  | c :: t => if c.isDigit then some (c :: t.takeWhile Char.isDigit) else firstDigitRun t

def digitsToNat (l : List Char) : Nat :=
  l.foldl (fun a c => a * 10 + (c.toNat - 48)) 0

/-- `re.findall(r'\d+', prompt_lower)` followed by `int(numbers[0])`,
defaulting to 5 (analysis.py lines 117-118). -/
def firstNatIn (p : String) : Nat :=
  match firstDigitRun (lowerStr p).data with
  | some ds => digitsToNat ds
  | none => 5

-- ## Snippet extractor (analysis.py lines 24-45)

def kwList : List String :=
  ["import ", "def ", "= px.", "fig = ", "result_df ="]

/-- `line.strip().startswith('#')`. -/
def lineIsComment (l : String) : Bool :=
  match pyStrip l.data with
  | c :: _ => c = '#'
  | [] => false

/-- Line-based recovery (analysis.py lines 32-45): a structural-marker line
flips the in-code flag; from then on every non-comment line is retained. -/
def lineRecover (text : String) : Option String :=
  let lines := text.splitOn "\n"
  let step := fun (acc : List String × Bool) (line : String) =>
    let inC := acc.2 || kwList.any (fun kw => strContains line kw)
    if inC && !(lineIsComment line) then (acc.1 ++ [line], inC) else (acc.1, inC)
  let cl := (lines.foldl step ([], false)).1
  if cl.isEmpty then none else some (pyStripS (String.intercalate "\n" cl))

/-- `re.search(r'(three backticks)python(.*?)(three backticks)', text, re.DOTALL)`
followed by `.group(1).strip()`, else line recovery (analysis.py lines 24-45).
The non-greedy group is the shortest stretch between the first opening fence
and the next closing fence; occurrences of the opening fence cannot overlap,
and a closing fence after a later opening fence also closes an earlier one,
so leftmost-opening-then-shortest-close coincides with `re.search`. -/
def clean_code_snippet (text : String) : Option String :=
  match findSub ("```python".data) text.data with
  | some i =>
      let rest := text.data.drop (i + 9)
      match findSub ("```".data) rest with
      | some j => some (pyStripS ⟨rest.take j⟩)
      | none => lineRecover text
  | none => lineRecover text

-- ## Data model (pandas DataFrame restricted to what analysis.py consults)

inductive Dtype
  | int64
  | float64
  | object
  | category
  | datetime
deriving DecidableEq, Repr

inductive Cell
  | int (i : Int)
  | rat (q : ℚ)
  | str (s : String)
  | dt (s : String)
deriving DecidableEq, Repr

/-- Numeric reading of a cell; total, used only under a numeric-ness check. -/
def ratOfCell : Cell → ℚ
  | .int i => (i : ℚ)
  | .rat q => q
  | _ => 0

def toQ : Cell → Option ℚ
  | .int i => some ((i : ℚ))
  | .rat q => some q
  | _ => none

/-- Pandas `+` on cells: numeric addition, string concatenation, otherwise a
TypeError (signalled as `none`). -/
def addCell : Cell → Cell → Option Cell
  | .int a, .int b => some (.int (a + b))
  | .int a, .rat b => some (.rat ((a : ℚ) + b))
  | .rat a, .int b => some (.rat (a + (b : ℚ)))
  | .rat a, .rat b => some (.rat (a + b))
  | .str a, .str b => some (.str (a ++ b))
  | _, _ => none

/-- Pandas `Series.sum()` over a group (left fold; empty sum is integer 0). -/
def sumCells : List Cell → Option Cell
  | [] => some (.int 0)
  | c :: t => t.foldl (fun acc x => acc.bind (fun a => addCell a x)) (some c)

def cellRank : Cell → Nat
  | .int _ => 0
  | .rat _ => 1
  | .str _ => 2
  | .dt _ => 3

def lexLe : List Char → List Char → Bool
  | [], _ => true
  | _ :: _, [] => false
  | a :: as, b :: bs => if a = b then lexLe as bs else decide (a < b)

/-- Total comparison on cells, used for the ascending group-key sort that
pandas `groupby(sort=True)` performs. -/
def cellLeB : Cell → Cell → Bool
  | .int a, .int b => decide (a ≤ b)
  | .rat a, .rat b => decide (a ≤ b)
  | .str a, .str b => lexLe a.data b.data
  | .dt a, .dt b => lexLe a.data b.data
  | a, b => decide (cellRank a ≤ cellRank b)

def keyRel (a b : Cell) : Prop :=
  cellLeB a b = true

instance : DecidableRel keyRel :=
  fun a b => inferInstanceAs (Decidable (cellLeB a b = true))

/-- `nlargest` ordering: descending by the numeric value of the summed cell. -/
def nlRel (a b : Cell × Cell) : Prop :=
  ratOfCell b.2 ≤ ratOfCell a.2

instance : DecidableRel nlRel :=
  fun a b => inferInstanceAs (Decidable (ratOfCell b.2 ≤ ratOfCell a.2))

instance : IsTotal (Cell × Cell) nlRel :=
  ⟨fun a b => le_total (ratOfCell b.2) (ratOfCell a.2)⟩

instance : IsTrans (Cell × Cell) nlRel :=
  ⟨fun _ _ _ hab hbc => le_trans hbc hab⟩

structure Table where
  columns : List String
  dtypes : List Dtype
  rows : List (List Cell)
deriving DecidableEq, Repr

def Table.empty : Table :=
  ⟨[], [], []⟩

/-- Pandas `df.empty`: true when either axis has length 0. -/
def Table.isEmpty (t : Table) : Bool :=
  t.rows.isEmpty || t.columns.isEmpty

def Table.colIdx (t : Table) (c : String) : Option Nat :=
  t.columns.findIdx? (fun x => x == c)

def Table.colAt (t : Table) (i : Nat) : List Cell :=
  t.rows.map (fun r => r.getD i (.int 0))

def Table.dtypeAt (t : Table) (i : Nat) : Dtype :=
  t.dtypes.getD i .object

def Table.dtypeOfName (t : Table) (c : String) : Dtype :=
  match t.colIdx c with
  | some i => t.dtypeAt i
  | none => .object

-- ## Chart objects and outcomes

inductive Chart
  | bar (x y title : String)
  | pie (values names title : String)
  | histogram (x title : String)
  | scatter (x y color title : String)
  | line (x y title : String)
deriving DecidableEq, Repr

/-- The triple `(result_df, fig, viz_type)` returned by `analyze_data`. -/
structure AnalysisOutcome where
  result_df : Table
  fig : Option Chart
  status : String
deriving DecidableEq, Repr

-- ## Heuristic fallback generator (analysis.py lines 112-209)

inductive FallbackSnippet
  | topN (categoryCol valueCol : String) (n : Nat)
  | dist (valueCol : String)
  | pieChart (categoryCol valueCol : String)
  | scatterPlot (categoryCol valueCol secondValueCol : String)
  | trend (dateCol valueCol : String)
  | summary (categoryCol valueCol : String)
deriving DecidableEq, Repr

def FallbackSnippet.isTrend : FallbackSnippet → Bool
  | .trend _ _ => true
  | _ => false

def valueKw : List String :=
  ["value", "amount", "qty", "quantity", "number", "count", "total", "sum", "score", "mark"]

def categoryKw : List String :=
  ["category", "type", "status", "name", "group", "class", "city", "location"]

def dateKw : List String :=
  ["date", "time", "day", "month", "year"]

def value_columnsOf (df : Table) : List String :=
  df.columns.filter (fun c => valueKw.any (fun kw => strContains (lowerStr c) kw))

def category_columnsOf (df : Table) : List String :=
  df.columns.filter (fun c => categoryKw.any (fun kw => strContains (lowerStr c) kw))

def date_columnsOf (df : Table) : List String :=
  df.columns.filter (fun c => dateKw.any (fun kw => strContains (lowerStr c) kw))

/-- Columns whose lowercased name occurs in the lowercased prompt, in table
column order (analysis.py lines 129-132). -/
def mentioned_columnsOf (p : String) (df : Table) : List String :=
  df.columns.filter (fun c => strContains (lowerStr p) (lowerStr c))

def isNumericD : Dtype → Bool
  | .int64 => true
  | .float64 => true
  | _ => false

def isCatD : Dtype → Bool
  | .object => true
  | .category => true
  | _ => false

def numericColsOf (df : Table) : List String :=
  df.columns.filter (fun c => isNumericD (df.dtypeOfName c))

def catColsOf (df : Table) : List String :=
  df.columns.filter (fun c => isCatD (df.dtypeOfName c))

/-- Value-column resolution (analysis.py lines 134-142). -/
def resolveValueCol (p : String) (df : Table) : String :=
  let fallbackV :=
    match value_columnsOf df with
    | v :: _ => v
    | [] =>
        match numericColsOf df with
        | nc :: _ => nc
        | [] => df.columns.getD 0 ""
  match mentioned_columnsOf p df with
  | m0 :: _ => if isNumericD (df.dtypeOfName m0) then m0 else fallbackV
  | [] => fallbackV

/-- Category-column resolution (analysis.py lines 144-154). -/
def resolveCategoryCol (p : String) (df : Table) : String :=
  let fallbackC :=
    match category_columnsOf df with
    | c :: _ => c
    | [] =>
        match catColsOf df with
        | cc :: _ => cc
        | [] => df.columns.getD 0 ""
  match mentioned_columnsOf p df with
  | m0 :: m1 :: _ =>
      if isCatD (df.dtypeOfName m1) then m1
      else if isCatD (df.dtypeOfName m0) then m0
      else fallbackC
  | [m0] => if isCatD (df.dtypeOfName m0) then m0 else fallbackC
  | [] => fallbackC

/-- The second value column of the comparison branch (analysis.py
lines 181-182): first keyword-matched value column different from the
resolved one, else the resolved one itself. -/
def secondValueColOf (prompt : String) (df : Table) : String :=
  match (value_columnsOf df).filter (fun c => c != resolveValueCol prompt df) with
  | s :: _ => s
  | [] => resolveValueCol prompt df

/-- The dispatch of analysis.py lines 156-209, in source order; the returned
constructor records exactly the names and the N interpolated into the
corresponding code template. -/
def generate_fallback_code (prompt : String) (df : Table) : FallbackSnippet :=
  if strContains (lowerStr prompt) "top" then
    .topN (resolveCategoryCol prompt df) (resolveValueCol prompt df) (firstNatIn prompt)
  else if strContains (lowerStr prompt) "distribution" ||
      strContains (lowerStr prompt) "histogram" then
    .dist (resolveValueCol prompt df)
  else if strContains (lowerStr prompt) "pie" || strContains (lowerStr prompt) "percent" then
    .pieChart (resolveCategoryCol prompt df) (resolveValueCol prompt df)
  else if strContains (lowerStr prompt) "compare" ||
      strContains (lowerStr prompt) "correlation" ||
      strContains (lowerStr prompt) "scatter" then
    .scatterPlot (resolveCategoryCol prompt df) (resolveValueCol prompt df)
      (secondValueColOf prompt df)
  else if strContains (lowerStr prompt) "trend" && !(date_columnsOf df).isEmpty then
    .trend ((date_columnsOf df).getD 0 "") (resolveValueCol prompt df)
  else .summary (resolveCategoryCol prompt df) (resolveValueCol prompt df)

-- ## Execution sandbox semantics for the fallback templates
-- (analysis.py lines 159-207 executed by `exec` at line 224)

/-- Cells of the value column belonging to the group keyed `k`. -/
def groupOf (k : Cell) (catCells valCells : List Cell) : List Cell :=
  ((catCells.zip valCells).filter (fun p => p.1 == k)).map Prod.snd

/-- Sorted distinct keys: pandas `groupby(sort=True)`. -/
def groupKeys (catCells : List Cell) : List Cell :=
  List.insertionSort keyRel catCells.dedup

/-- Per-key summed value column; `none` on an aggregation TypeError. -/
def liftSums : List (Cell × Option Cell) → Option (List (Cell × Cell))
  | [] => some []
  | (k, some s) :: t => (liftSums t).map (fun l => (k, s) :: l)
  | (_, none) :: _ => none

def groupSums (catCells valCells : List Cell) : List (Cell × Option Cell) :=
  (groupKeys catCells).map (fun k => (k, sumCells (groupOf k catCells valCells)))

/-- `df.groupby(cat)[val].sum().nlargest(n).reset_index()` plus the bar chart
(the top-N template, analysis.py lines 159-164). -/
def execTopN (cat val : String) (n : Nat) (df : Table) :
    Except String (Table × Option Chart × String) :=
  match df.colIdx cat, df.colIdx val with
  | some ci, some vi =>
      match liftSums (groupSums (df.colAt ci) (df.colAt vi)) with
      | none => .error "TypeError: could not aggregate"
      | some pairs =>
          if pairs.all (fun p => (toQ p.2).isSome) then
            let top := (List.insertionSort nlRel pairs).take n
            .ok (⟨[cat, val], [df.dtypeAt ci, df.dtypeAt vi],
                  top.map (fun p => [p.1, p.2])⟩,
                 some (.bar cat val ("Top " ++ toString n ++ " " ++ cat ++ " by " ++ val)),
                 "bar")
          else .error "TypeError: nlargest requires numeric values"
  | _, _ => .error "KeyError"

/-- `result_df = df[[val]]` plus the histogram of the value column
(the distribution template, analysis.py lines 167-171). -/
def execDist (val : String) (df : Table) :
    Except String (Table × Option Chart × String) :=
  match df.colIdx val with
  | some vi =>
      .ok (⟨[val], [df.dtypeAt vi], df.rows.map (fun r => [r.getD vi (.int 0)])⟩,
           some (.histogram val ("Distribution of " ++ val)),
           "histogram")
  | none => .error "KeyError"

/-- `df.groupby(cat)[val].sum().reset_index()` plus the pie chart
(the pie template, analysis.py lines 174-178). -/
def execPie (cat val : String) (df : Table) :
    Except String (Table × Option Chart × String) :=
  match df.colIdx cat, df.colIdx val with
  | some ci, some vi =>
      match liftSums (groupSums (df.colAt ci) (df.colAt vi)) with
      | none => .error "TypeError: could not aggregate"
      | some pairs =>
          .ok (⟨[cat, val], [df.dtypeAt ci, df.dtypeAt vi],
                pairs.map (fun p => [p.1, p.2])⟩,
               some (.pie val cat (val ++ " by " ++ cat)),
               "pie")
  | _, _ => .error "KeyError"

/-- `result_df = df[[cat, val, val2]]` plus the scatter plot
(the comparison template, analysis.py lines 184-189). -/
def execScatter (cat val val2 : String) (df : Table) :
    Except String (Table × Option Chart × String) :=
  match df.colIdx cat, df.colIdx val, df.colIdx val2 with
  | some ci, some vi, some wi =>
      .ok (⟨[cat, val, val2], [df.dtypeAt ci, df.dtypeAt vi, df.dtypeAt wi],
            df.rows.map (fun r => [r.getD ci (.int 0), r.getD vi (.int 0), r.getD wi (.int 0)])⟩,
           some (.scatter val val2 cat (val ++ " vs " ++ val2 ++ " by " ++ cat)),
           "scatter")
  | _, _, _ => .error "KeyError"

/-- `pd.to_datetime` on one cell: strings are parsed into datetimes (modelled
by their source text), integers are interpreted as epochs. -/
def toDatetime : Cell → Cell
  | .str s => .dt s
  | .int i => .dt (toString i)
  | c => c

/-- `df[date] = pd.to_datetime(df[date])` (analysis.py line 194): the caller's
table itself gets its date column replaced in place. -/
def mutateDateCol (df : Table) (i : Nat) : Table :=
  ⟨df.columns, df.dtypes.set i .datetime,
   df.rows.map (fun r => r.set i (toDatetime (r.getD i (.int 0))))⟩

/-- Grouping by calendar day and summing, plus the line chart (the trend
template body after the in-place conversion, analysis.py lines 195-199). -/
def execTrend (dateCol val : String) (df : Table) :
    Except String (Table × Option Chart × String) :=
  match df.colIdx dateCol, df.colIdx val with
  | some di, some vi =>
      match liftSums (groupSums (df.colAt di) (df.colAt vi)) with
      | none => .error "TypeError: could not aggregate"
      | some pairs =>
          .ok (⟨[dateCol, val], [df.dtypeAt di, df.dtypeAt vi],
                pairs.map (fun p => [p.1, p.2])⟩,
               some (.line dateCol val (val ++ " Trend Over Time")),
               "line")
  | _, _ => .error "KeyError"

def liftAgg : List (Cell × Option Cell × Nat) → Option (List (Cell × Cell × Nat))
  | [] => some []
  | (k, some s, c) :: t => (liftAgg t).map (fun l => (k, s, c) :: l)
  | (_, none, _) :: _ => none

/-- `df.groupby(cat)[val].agg(['sum','mean','count'])` with renamed columns
plus the bar chart of the sums (the default template, analysis.py
lines 202-207); `mean` on non-numeric data is a TypeError. -/
def execSummary (cat val : String) (df : Table) :
    Except String (Table × Option Chart × String) :=
  match df.colIdx cat, df.colIdx val with
  | some ci, some vi =>
      let catCells := df.colAt ci
      let valCells := df.colAt vi
      let agg := (groupKeys catCells).map
        (fun k => (k, sumCells (groupOf k catCells valCells), (groupOf k catCells valCells).length))
      match liftAgg agg with
      | none => .error "TypeError: could not aggregate"
      | some triples =>
          if triples.all (fun p => (toQ p.2.1).isSome) then
            .ok (⟨[cat, "Total_" ++ val, "Average_" ++ val, "Count"],
                  [df.dtypeAt ci, df.dtypeAt vi, .float64, .int64],
                  triples.map (fun p =>
                    [p.1, p.2.1, .rat (ratOfCell p.2.1 / (p.2.2 : ℚ)), .int (p.2.2 : Int)])⟩,
                 some (.bar cat ("Total_" ++ val) (val ++ " by " ++ cat)),
                 "bar")
          else .error "TypeError: could not compute mean"
  | _, _ => .error "KeyError"

/-- Execute a fallback template against the table bound to `df` in the
sandbox namespace. The first component is the caller's table after
execution: only the trend template mutates it (analysis.py line 194),
and it does so before any aggregation error can occur. -/
def execFallback (s : FallbackSnippet) (df : Table) :
    Table × Except String (Table × Option Chart × String) :=
  match s with
  | .topN cat val n => (df, execTopN cat val n df)
  | .dist val => (df, execDist val df)
  | .pieChart cat val => (df, execPie cat val df)
  | .scatterPlot cat val val2 => (df, execScatter cat val val2 df)
  | .trend dateCol val =>
      match df.colIdx dateCol with
      | none => (df, .error "KeyError")
      | some di =>
          let df' := mutateDateCol df di
          (df', execTrend dateCol val df')
  | .summary cat val => (df, execSummary cat val df)

-- ## Pipeline (analysis.py lines 47-110 and 211-240)

/-- A snippet chosen for execution: either raw model-produced text or a
heuristic template. -/
inductive Code
  | llmText (t : String)
  | fallback (s : FallbackSnippet)

/-- Semantics of executing model-produced text in the sandbox: external
(arbitrary code), so modelled as a parameter. It may mutate the table and
either raise or produce the three harvested outputs. -/
def Oracle : Type :=
  String → Table → Table × Except String (Table × Option Chart × String)

/-- A concrete oracle used to instantiate witnesses. -/
def oracle0 : Oracle :=
  fun _ df => (df, .error "external snippet")

/-- analysis.py lines 47-110. `modelAvailable` models `model is not None`;
`gen` models the outcome of `model.generate_content(...).text` (ok text, or
error when the call raises). The `raise` at line 50 sits OUTSIDE the
function's try block, so when the model is unavailable the exception
propagates to `analyze_data`; every failure inside the try block (generation
error, or no extractable snippet) is caught at line 108 and answered with
the heuristic fallback. -/
def interpret_prompt_with_llm (modelAvailable : Bool) (gen : Except String String)
    (prompt : String) (df : Table) : Except String Code :=
  if modelAvailable = false then .error "Gemini model not available. Using fallback."
  else
    match gen with
    | .error _ => .ok (.fallback (generate_fallback_code prompt df))
    | .ok text =>
        match clean_code_snippet text with
        | none => .ok (.fallback (generate_fallback_code prompt df))
        | some snip => .ok (.llmText snip)

def execCode (oracle : Oracle) (c : Code) (df : Table) :
    Table × Except String (Table × Option Chart × String) :=
  match c with
  | .llmText t => oracle t df
  | .fallback s => execFallback s df

/-- The body of the try block of `analyze_data` (analysis.py lines 216-235):
code choice, sandbox execution, result harvesting, empty-result validation.
Errors are still in flight here; the first component is the caller's table
after whatever execution took place. -/
def analyzePipeline (modelAvailable : Bool) (gen : Except String String) (oracle : Oracle)
    (prompt : String) (df : Table) : Table × Except String AnalysisOutcome :=
  match interpret_prompt_with_llm modelAvailable gen prompt df with
  | .error e => (df, .error e)
  | .ok code =>
      match execCode oracle code df with
      | (df', .error e) => (df', .error e)
      | (df', .ok (rdf, fig, viz)) =>
          if rdf.isEmpty then
            (df', .ok ⟨Table.empty, none, "No results generated from the query"⟩)
          else (df', .ok ⟨rdf, fig, viz⟩)

/-- analysis.py lines 211-240. The second component is the caller's table
after the call (the source executes snippets against the live object). -/
def analyze_data (modelAvailable : Bool) (gen : Except String String) (oracle : Oracle)
    (prompt : String) (df : Table) : AnalysisOutcome × Table :=
  if df.isEmpty then (⟨Table.empty, none, "No data available"⟩, df)
  else
    match analyzePipeline modelAvailable gen oracle prompt df with
    | (df', .ok o) => (o, df')
    | (df', .error e) => (⟨Table.empty, none, "Error processing prompt: " ++ e⟩, df')

/-- `analyze_data` with its outermost try/except made explicit: a result of
`.error` would mean an exception escaping to the caller. The except clause
at analysis.py line 237 catches `Exception`, so every pipeline error is
converted, never re-raised. -/
def analyze_dataE (modelAvailable : Bool) (gen : Except String String) (oracle : Oracle)
    (prompt : String) (df : Table) : Except String (AnalysisOutcome × Table) :=
  if df.isEmpty then .ok (⟨Table.empty, none, "No data available"⟩, df)
  else
    match analyzePipeline modelAvailable gen oracle prompt df with
    | (df', .ok o) => .ok (o, df')
    | (df', .error e) => .ok (⟨Table.empty, none, "Error processing prompt: " ++ e⟩, df')

def rowCatInt : List Cell → Bool
  | [_, .int _] => true
  | _ => false

/-- Descending order on result rows by the numeric value in column 1. -/
def rowGe (r1 r2 : List Cell) : Prop :=
  ratOfCell (r2.getD 1 (.int 0)) ≤ ratOfCell (r1.getD 1 (.int 0))

/-- A small concrete table used to instantiate witnesses. -/
def dfW : Table :=
  ⟨["Category", "Value1"], [.object, .int64],
   [[.str "A", .int 3], [.str "B", .int 7], [.str "A", .int 2]]⟩

-- ## Helper lemmas

theorem isPrefOf_append_self : ∀ (p t : List Char), isPrefOf p (p ++ t) = true
  | [], _ => rfl
  | a :: as, t => by simp [isPrefOf, isPrefOf_append_self as t]

theorem findSub_of_isPref (pat l : List Char) (h : isPrefOf pat l = true) :
    findSub pat l = some 0 := by
  cases l with
  | nil =>
      cases pat with
      | nil => rfl
      | cons a as => simp [isPrefOf] at h
  | cons c t => simp [findSub, h]

theorem errMsg_ne (e : String) : ("Error processing prompt: " ++ e) ≠ "" := by
  intro hc
  have h1 : ("Error processing prompt: " ++ e).length = 0 := by rw [hc]; rfl
  rw [String.length_append] at h1
  have h2 : "Error processing prompt: ".length = 25 := rfl
  omega

theorem noData_ne : "No data available" ≠ "" := by
  decide

theorem noResults_ne : "No results generated from the query" ≠ "" := by
  decide

theorem execFallback_fst (s : FallbackSnippet) (df : Table) (h : s.isTrend = false) :
    (execFallback s df).1 = df := by
  cases s with
  | trend d v => simp [FallbackSnippet.isTrend] at h
  | topN c v n => rfl
  | dist v => rfl
  | pieChart c v => rfl
  | scatterPlot c v w => rfl
  | summary c v => rfl

/-- Every outcome of `analyze_data` is either one of the three normalized
failure outcomes (empty table, absent chart, non-empty message) or has a
non-empty result table. -/
theorem analyze_cases (mdl : Bool) (gen : Except String String) (oracle : Oracle)
    (p : String) (df : Table) :
    ((analyze_data mdl gen oracle p df).1.result_df = Table.empty ∧
      (analyze_data mdl gen oracle p df).1.fig = none ∧
      (analyze_data mdl gen oracle p df).1.status ≠ "") ∨
    (analyze_data mdl gen oracle p df).1.result_df.isEmpty = false := by
  unfold analyze_data
  split
  · exact Or.inl ⟨rfl, rfl, noData_ne⟩
  · rcases hP : analyzePipeline mdl gen oracle p df with ⟨df', r⟩
    rcases r with e | o
    · exact Or.inl ⟨rfl, rfl, errMsg_ne e⟩
    · have ho : o = ⟨Table.empty, none, "No results generated from the query"⟩ ∨
          o.result_df.isEmpty = false := by
        unfold analyzePipeline at hP
        rcases hI : interpret_prompt_with_llm mdl gen p df with e' | code
        · rw [hI] at hP
          simp at hP
        · rw [hI] at hP
          dsimp only at hP
          rcases hX : execCode oracle code df with ⟨df2, r2⟩
          rw [hX] at hP
          rcases r2 with e2 | ⟨rdf, fig, viz⟩
          · simp at hP
          · dsimp only at hP
            by_cases hE : rdf.isEmpty = true
            · rw [if_pos hE] at hP
              injection hP with h1 h2
              injection h2 with h3
              exact Or.inl h3.symm
            · rw [if_neg hE] at hP
              injection hP with h1 h2
              injection h2 with h3
              rw [← h3]
              simp at hE
              exact Or.inr hE
      rcases ho with rfl | hne
      · exact Or.inl ⟨rfl, rfl, noResults_ne⟩
      · exact Or.inr hne


theorem sumCells_int (l : List Cell) (h : ∀ c ∈ l, ∃ k : Int, c = .int k) :
    ∃ s : Int, sumCells l = some (.int s) := by
  cases l with
  | nil => exact ⟨0, rfl⟩
  | cons c t =>
      obtain ⟨k, hk⟩ := h c (List.mem_cons_self c t)
      subst hk
      have aux : ∀ (t2 : List Cell) (a : Int), (∀ c ∈ t2, ∃ k : Int, c = .int k) →
          ∃ s : Int,
            t2.foldl (fun acc x => acc.bind (fun y => addCell y x)) (some (.int a))
              = some (.int s) := by
        intro t2
        induction t2 with
        | nil => exact fun a _ => ⟨a, rfl⟩
        | cons d t3 ih =>
            intro a hh
            obtain ⟨kd, hkd⟩ := hh d (List.mem_cons_self d t3)
            subst hkd
            exact ih (a + kd) (fun c hc => hh c (List.mem_cons_of_mem _ hc))
      exact aux t k (fun c hc => h c (List.mem_cons_of_mem _ hc))

theorem liftSums_all (l : List (Cell × Option Cell))
    (h : ∀ p ∈ l, ∃ s : Int, p.2 = some (.int s)) :
    ∃ pairs, liftSums l = some pairs ∧ pairs.all (fun p => (toQ p.2).isSome) = true := by
  induction l with
  | nil => exact ⟨[], rfl, rfl⟩
  | cons hd tl ih =>
      obtain ⟨ptl, h1, h2⟩ := ih (fun p hp => h p (List.mem_cons_of_mem hd hp))
      obtain ⟨s, hs⟩ := h hd (List.mem_cons_self hd tl)
      rcases hd with ⟨k, os⟩
      dsimp at hs
      subst hs
      refine ⟨(k, .int s) :: ptl, ?_, ?_⟩
      · dsimp [liftSums]
        rw [h1]
        rfl
      · simp only [List.all_cons, h2, Bool.and_true]
        rfl

theorem mem_of_groupOf {c k : Cell} {catCells valCells : List Cell}
    (h : c ∈ groupOf k catCells valCells) : c ∈ valCells := by
  simp only [groupOf, List.mem_map] at h
  obtain ⟨p, hp, rfl⟩ := h
  exact (List.of_mem_zip (List.mem_of_mem_filter hp)).2

theorem sums_ok (catCells valCells : List Cell)
    (hv : ∀ c ∈ valCells, ∃ k : Int, c = .int k) :
    ∃ pairs, liftSums (groupSums catCells valCells) = some pairs ∧
      pairs.all (fun p => (toQ p.2).isSome) = true := by
  apply liftSums_all
  intro p hp
  simp only [groupSums, List.mem_map] at hp
  obtain ⟨k, hk, rfl⟩ := hp
  exact sumCells_int _ (fun c hc => hv c (mem_of_groupOf hc))

-- ## Claim theorems

/-- Claim C1: for every table and every prompt (and every model state and every
behaviour of the external generative call and of model-produced snippets),
`analyze_data` returns a well-formed three-part Analysis Outcome and never
raises: its explicit-exception model always yields `ok`, and whenever the
returned result table is empty the status component is a non-empty
explanatory string. -/
theorem c1_analyze_total (mdl : Bool) (gen : Except String String) (oracle : Oracle)
    (p : String) (df : Table) :
    analyze_dataE mdl gen oracle p df = Except.ok (analyze_data mdl gen oracle p df) ∧
    ((analyze_data mdl gen oracle p df).1.result_df.isEmpty = true →
      (analyze_data mdl gen oracle p df).1.status ≠ "") := by
  constructor
  · unfold analyze_dataE analyze_data
    split
    · rfl
    · rcases hP : analyzePipeline mdl gen oracle p df with ⟨df', r⟩
      rcases r with e | o <;> rfl
  · intro h
    rcases analyze_cases mdl gen oracle p df with ⟨_, _, hs⟩ | hne
    · exact hs
    · rw [hne] at h
      exact absurd h (by decide)

theorem c1_witness :
    (analyze_data true (Except.error "e") oracle0 "top" Table.empty).1.result_df.isEmpty = true ∧
    (analyze_data true (Except.error "e") oracle0 "top" Table.empty).1.status ≠ "" :=
  ⟨by decide, (c1_analyze_total true (Except.error "e") oracle0 "top" Table.empty).2 (by decide)⟩

/-- Claim C10: whenever the Analysis Outcome returned by `analyze_data` has an
empty result table (empty input table, execution error, or empty snippet
result), the chart component of the outcome is absent. -/
theorem c10_empty_result_no_chart (mdl : Bool) (gen : Except String String) (oracle : Oracle)
    (p : String) (df : Table)
    (h : (analyze_data mdl gen oracle p df).1.result_df.isEmpty = true) :
    (analyze_data mdl gen oracle p df).1.fig = none := by
  rcases analyze_cases mdl gen oracle p df with ⟨_, hf, _⟩ | hne
  · exact hf
  · rw [hne] at h
    exact absurd h (by decide)

theorem c10_witness :
    (analyze_data false (Except.error "x") oracle0 "query" dfW).1.result_df.isEmpty = true ∧
    (analyze_data false (Except.error "x") oracle0 "query" dfW).1.fig = none :=
  ⟨by decide, c10_empty_result_no_chart false (Except.error "x") oracle0 "query" dfW (by decide)⟩

/-- Claim C9: for every prompt (and every model state and external behaviour),
`analyze_data` on an empty table returns the empty result table with a
non-empty explanatory status, independently of the generative call, the
fallback generator and snippet execution (none of which are consulted:
the outcome is the same for all `gen` and `oracle`). -/
theorem c9_empty_table (mdl : Bool) (gen : Except String String) (oracle : Oracle)
    (p : String) (df : Table) (h : df.isEmpty = true) :
    analyze_data mdl gen oracle p df
      = (⟨Table.empty, none, "No data available"⟩, df) ∧
    Table.empty.isEmpty = true ∧ "No data available" ≠ "" := by
  refine ⟨?_, by decide, noData_ne⟩
  unfold analyze_data
  rw [if_pos h]

theorem c9_witness :
    Table.empty.isEmpty = true ∧
    (analyze_data true (Except.ok "no snippet") oracle0 "top 3" Table.empty
        = (⟨Table.empty, none, "No data available"⟩, Table.empty) ∧
      Table.empty.isEmpty = true ∧ "No data available" ≠ "") :=
  ⟨by decide, c9_empty_table true (Except.ok "no snippet") oracle0 "top 3" Table.empty (by decide)⟩

/-- Claim C5: a prompt whose lowercase text contains both "top" and "pie" is
dispatched to the top-N branch (group by the resolved category column, sum
the resolved value column, keep the N largest, bar chart): the "top" test
comes first in the fixed dispatch order of analysis.py lines 156-178. -/
theorem c5_top_beats_pie (p : String) (df : Table)
    (h1 : strContains (lowerStr p) "top" = true)
    (_h2 : strContains (lowerStr p) "pie" = true) :
    generate_fallback_code p df
      = .topN (resolveCategoryCol p df) (resolveValueCol p df) (firstNatIn p) := by
  unfold generate_fallback_code
  rw [if_pos h1]

theorem c5_witness :
    (strContains (lowerStr "top pie") "top" = true ∧
      strContains (lowerStr "top pie") "pie" = true) ∧
    generate_fallback_code "top pie" dfW
      = .topN (resolveCategoryCol "top pie" dfW) (resolveValueCol "top pie" dfW)
          (firstNatIn "top pie") :=
  ⟨⟨by decide, by decide⟩, c5_top_beats_pie "top pie" dfW (by decide) (by decide)⟩

/-- Claim C2 (code-bug exhibit): with the external model unavailable
(`model is None`) and a non-empty table, `analyze_data` returns the ERROR
outcome "Error processing prompt: Gemini model not available. Using
fallback." instead of the heuristic fallback's outcome — the raise at
analysis.py line 50 sits outside the try block whose except clause invokes
the fallback, so the fallback never runs on this path even though executing
it on the same input would succeed with a non-empty result table. -/
theorem c2_model_unavailable_bug :
    analyze_data false (Except.error "unused") oracle0 "Show top 3 categories" dfW
      = (⟨Table.empty, none,
          "Error processing prompt: Gemini model not available. Using fallback."⟩, dfW) ∧
    execFallback (generate_fallback_code "Show top 3 categories" dfW) dfW
      = (dfW, Except.ok
          (⟨["Category", "Value1"], [.object, .int64],
            [[.str "B", .int 7], [.str "A", .int 5]]⟩,
           some (.bar "Category" "Value1" "Top 3 Category by Value1"), "bar")) ∧
    (⟨["Category", "Value1"], [.object, .int64],
      [[.str "B", .int 7], [.str "A", .int 5]]⟩ : Table).isEmpty = false := by
  refine ⟨by decide, by rfl, by decide⟩

/-- Claim C3 counterexample: running the pipeline on the trend branch mutates
the caller's table. With the generative call failing (so the heuristic path
is taken), prompt "trend" and a table with a date-named text column, the
caller's table after `analyze_data` differs from the original: its Date
column has been replaced in place by parsed datetimes. -/
theorem c3_counterexample :
    (analyze_data true (Except.error "API error") oracle0 "trend"
        ⟨["Date", "Value"], [.object, .int64],
         [[.str "2024-01-01", .int 3], [.str "2024-01-02", .int 4]]⟩).2 ≠
      ⟨["Date", "Value"], [.object, .int64],
       [[.str "2024-01-01", .int 3], [.str "2024-01-02", .int 4]]⟩ := by
  decide

/-- Claim C3 (amended): whenever the pipeline executes a heuristic snippet
from any branch other than the trend branch (here: generative call failed,
so the fallback is dispatched), the caller's table is left unchanged; only
the trend branch mutates it in place. -/
theorem c3_no_mutation_off_trend (e : String) (oracle : Oracle) (p : String) (df : Table)
    (h : (generate_fallback_code p df).isTrend = false) :
    (analyze_data true (Except.error e) oracle p df).2 = df := by
  unfold analyze_data
  split
  · rfl
  · have hI : interpret_prompt_with_llm true (Except.error e) p df
        = Except.ok (Code.fallback (generate_fallback_code p df)) := rfl
    unfold analyzePipeline
    rw [hI]
    dsimp only [execCode]
    rcases hE : execFallback (generate_fallback_code p df) df with ⟨df', r⟩
    have hdf : df' = df := by
      have h2 := execFallback_fst (generate_fallback_code p df) df h
      rw [hE] at h2
      exact h2
    subst hdf
    rcases r with e2 | ⟨rdf, fig, viz⟩
    · rfl
    · dsimp only
      by_cases hrdf : rdf.isEmpty = true
      · rw [if_pos hrdf]
      · rw [if_neg hrdf]

theorem c3_witness :
    (generate_fallback_code "pie" dfW).isTrend = false ∧
    (analyze_data true (Except.error "x") oracle0 "pie" dfW).2 = dfW :=
  ⟨by decide, c3_no_mutation_off_trend "x" oracle0 "pie" dfW (by decide)⟩

/-- Claim C7: prompt "distribution of Value1" on a table with columns
Value1 (numeric) and Category dispatches to the distribution branch, and the
executed snippet's result table contains only the Value1 column — the
resolved category column plays no role in this branch. -/
theorem c7_distribution_branch (df : Table)
    (hc : df.columns = ["Value1", "Category"])
    (hd : df.dtypes = [Dtype.int64, Dtype.object]) :
    generate_fallback_code "distribution of Value1" df = .dist "Value1" ∧
    ∃ t fig, execFallback (.dist "Value1") df = (df, Except.ok (t, fig, "histogram")) ∧
      t.columns = ["Value1"] := by
  obtain ⟨cols, dts, rows⟩ := df
  dsimp only at hc hd
  subst hc
  subst hd
  refine ⟨rfl, ⟨["Value1"], [Dtype.int64], rows.map (fun r => [r.getD 0 (.int 0)])⟩,
    some (.histogram "Value1" ("Distribution of " ++ "Value1")), rfl, rfl⟩

theorem c7_witness :
    (⟨["Value1", "Category"], [.int64, .object],
      [[.int 3, .str "A"], [.int 7, .str "B"]]⟩ : Table).columns = ["Value1", "Category"] ∧
    (generate_fallback_code "distribution of Value1"
        ⟨["Value1", "Category"], [.int64, .object],
         [[.int 3, .str "A"], [.int 7, .str "B"]]⟩ = .dist "Value1" ∧
      ∃ t fig, execFallback (.dist "Value1")
          ⟨["Value1", "Category"], [.int64, .object],
           [[.int 3, .str "A"], [.int 7, .str "B"]]⟩
          = (⟨["Value1", "Category"], [.int64, .object],
              [[.int 3, .str "A"], [.int 7, .str "B"]]⟩, Except.ok (t, fig, "histogram")) ∧
        t.columns = ["Value1"]) :=
  ⟨rfl,
   c7_distribution_branch
     ⟨["Value1", "Category"], [.int64, .object], [[.int 3, .str "A"], [.int 7, .str "B"]]⟩
     rfl rfl⟩

theorem clean_fenced_data (ls : List Char)
    (h : findSub ("```".data) (ls ++ "```".data) = some ls.length) :
    clean_code_snippet ⟨"```python".data ++ (ls ++ "```".data)⟩
      = some (pyStripS ⟨ls⟩) := by
  unfold clean_code_snippet
  dsimp only
  have h0 : findSub ("```python".data) ("```python".data ++ (ls ++ "```".data)) = some 0 :=
    findSub_of_isPref _ _ (isPrefOf_append_self _ _)
  rw [h0]
  dsimp only
  have hdrop : ("```python".data ++ (ls ++ "```".data)).drop (0 + 9) = ls ++ "```".data := by
    have h9 : (0 + 9 : Nat) = ("```python".data).length := rfl
    rw [h9, List.drop_left]
  rw [hdrop, h]
  dsimp only
  rw [List.take_left]

/-- Claim C8 counterexample: the claim fails for snippet texts that contain
the closing fence marker. Wrapping "x = 1\n(fence)\ny = 2" in explicit
fencing and extracting returns only "x = 1": the non-greedy fence regex
stops at the first interior closing fence, dropping the later lines. -/
theorem c8_counterexample :
    clean_code_snippet ("```python" ++ "x = 1\n```\ny = 2" ++ "```") ≠
      some (pyStripS "x = 1\n```\ny = 2") := by
  decide

/-- Claim C8 (amended): for every snippet text s in which the closing fence
occurs no earlier than at the very end of the fenced region (equivalently: s
neither contains the three-backtick marker nor ends with a backtick), the
Snippet Extractor applied to s wrapped in explicit code fencing returns
exactly s trimmed of leading and trailing whitespace, with no reordering or
dropping of interior lines. -/
theorem c8_fence_round_trip (s : String)
    (h : findSub ("```".data) (s.data ++ "```".data) = some s.data.length) :
    clean_code_snippet ("```python" ++ s ++ "```") = some (pyStripS s) := by
  obtain ⟨ls⟩ := s
  exact clean_fenced_data ls h

theorem c8_witness :
    findSub ("```".data) ("result_df = df".data ++ "```".data)
      = some "result_df = df".data.length ∧
    clean_code_snippet ("```python" ++ "result_df = df" ++ "```")
      = some (pyStripS "result_df = df") :=
  ⟨by decide, c8_fence_round_trip "result_df = df" (by decide)⟩

theorem execTopN_eval (cat val : String) (n : Nat) (T : Table) (ci vi : Nat)
    (hci : T.colIdx cat = some ci) (hvi : T.colIdx val = some vi)
    (pairs : List (Cell × Cell))
    (hpairs : liftSums (groupSums (T.colAt ci) (T.colAt vi)) = some pairs)
    (hnum : pairs.all (fun p => (toQ p.2).isSome) = true) :
    execTopN cat val n T = Except.ok
      (⟨[cat, val], [T.dtypeAt ci, T.dtypeAt vi],
        ((List.insertionSort nlRel pairs).take n).map (fun p => [p.1, p.2])⟩,
       some (.bar cat val ("Top " ++ toString n ++ " " ++ cat ++ " by " ++ val)), "bar") := by
  unfold execTopN
  rw [hci, hvi]
  dsimp only
  rw [hpairs]
  dsimp only
  rw [if_pos hnum]

/-- Claim C6: prompt "Show top 12 categories" on a table with a categorical
Category column and a numeric Value1 column resolves N = 12, value column
Value1 and category column Category, and the executed snippet succeeds with
a result table of at most 12 rows sorted descending by the summed Value1. -/
theorem c6_top12 (df : Table)
    (hc : df.columns = ["Category", "Value1"])
    (hd : df.dtypes = [Dtype.object, Dtype.int64])
    (hr : df.rows.all rowCatInt = true) :
    generate_fallback_code "Show top 12 categories" df = .topN "Category" "Value1" 12 ∧
    ∃ t fig, execFallback (.topN "Category" "Value1" 12) df
        = (df, Except.ok (t, fig, "bar")) ∧
      t.columns = ["Category", "Value1"] ∧ t.rows.length ≤ 12 ∧
      t.rows.Pairwise rowGe := by
  obtain ⟨cols, dts, rows⟩ := df
  dsimp only at hc hd hr
  subst hc
  subst hd
  refine ⟨rfl, ?_⟩
  have hv : ∀ c ∈ (Table.mk ["Category", "Value1"] [Dtype.object, Dtype.int64] rows).colAt 1,
      ∃ k : Int, c = .int k := by
    intro c hcm
    dsimp only [Table.colAt] at hcm
    rw [List.mem_map] at hcm
    obtain ⟨r, hrm, rfl⟩ := hcm
    have hall := List.all_eq_true.mp hr r hrm
    rcases r with _ | ⟨a, _ | ⟨b, _ | ⟨c2, rest⟩⟩⟩
    · simp [rowCatInt] at hall
    · simp [rowCatInt] at hall
    · cases b with
      | int k => exact ⟨k, rfl⟩
      | rat q => simp [rowCatInt] at hall
      | str s2 => simp [rowCatInt] at hall
      | dt s2 => simp [rowCatInt] at hall
    · simp [rowCatInt] at hall
  obtain ⟨pairs, hpairs, hnum⟩ :=
    sums_ok ((Table.mk ["Category", "Value1"] [Dtype.object, Dtype.int64] rows).colAt 0)
      ((Table.mk ["Category", "Value1"] [Dtype.object, Dtype.int64] rows).colAt 1) hv
  refine ⟨⟨["Category", "Value1"], [Dtype.object, Dtype.int64],
      ((List.insertionSort nlRel pairs).take 12).map (fun p => [p.1, p.2])⟩,
    some (.bar "Category" "Value1"
      ("Top " ++ toString 12 ++ " " ++ "Category" ++ " by " ++ "Value1")),
    ?_, rfl, ?_, ?_⟩
  · exact congrArg
      (Prod.mk (Table.mk ["Category", "Value1"] [Dtype.object, Dtype.int64] rows))
      (execTopN_eval "Category" "Value1" 12
        (Table.mk ["Category", "Value1"] [Dtype.object, Dtype.int64] rows)
        0 1 rfl rfl pairs hpairs hnum)
  · dsimp only
    rw [List.length_map, List.length_take]
    exact min_le_left _ _
  · dsimp only
    have hsorted : List.Pairwise nlRel (List.insertionSort nlRel pairs) :=
      List.sorted_insertionSort nlRel pairs
    have htake : List.Pairwise nlRel ((List.insertionSort nlRel pairs).take 12) :=
      hsorted.sublist (List.take_sublist _ _)
    exact htake.map _ (fun a b hab => hab)

theorem c6_witness :
    dfW.rows.all rowCatInt = true ∧
    (generate_fallback_code "Show top 12 categories" dfW = .topN "Category" "Value1" 12 ∧
      ∃ t fig, execFallback (.topN "Category" "Value1" 12) dfW
          = (dfW, Except.ok (t, fig, "bar")) ∧
        t.columns = ["Category", "Value1"] ∧ t.rows.length ≤ 12 ∧
        t.rows.Pairwise rowGe) :=
  ⟨by decide, c6_top12 dfW rfl rfl (by decide)⟩
